import Mathlib

/-!
Shallow embedding of `imagekit/cachefiles/backends.py`: the cache-backed
existence/generation state machine for derived files, with synchronous
(`Simple`) and asynchronous (`Async`) generation dispatchers.

The cache backend, storage backend and task queue are external collaborators;
they are modelled explicitly as part of a `World` record threaded through every
operation: the key/value state cache (recording, for each write, the explicit
timeout argument passed to `cache.set`, if any), the number of invocations of
the file object's own rendering routine `file._generate()`, and the list of
deferred tasks enqueued on the celery queue.
-/

/-- The tri-state status enumeration `CacheFileState` from the source:
`EXISTS = 'exists'`, `GENERATING = 'generating'`, `DOES_NOT_EXIST = 'does_not_exist'`. -/
inductive CacheFileState where
  | EXISTS
  | GENERATING
  | DOES_NOT_EXIST
deriving DecidableEq, Repr

/-- A record held by the state cache: the stored state together with the
explicit timeout argument passed to `cache.set` (`none` when `cache.set` was
called without a timeout argument, i.e. the cache's default TTL applies). -/
structure CacheEntry where
  state : CacheFileState
  timeout : Option Nat
deriving DecidableEq, Repr

/-- The file object seen by this layer: its logical `name`, whether an
in-memory representation is attached (`bool(getattr(file, '_file', None))`),
whether `file.storage.exists(file.name)` reports the file present, and whether
its own rendering routine `file._generate()` raises when invoked. -/
structure File where
  name : String
  hasFileAttr : Bool
  storageExists : Bool
  generateRaises : Bool
deriving DecidableEq, Repr

/-- Configuration of a `CachedFileBackend` instance: the configured cache key
prefix (`settings.IMAGEKIT_CACHE_PREFIX`) and the class attribute
`existence_check_timeout`, whose source default is `5` seconds. -/
structure Backend where
  cachePref : String
  existence_check_timeout : Nat := 5
deriving DecidableEq, Repr

/-- A deferred task enqueued by `_generate_file.delay(self, file, force=force)`:
it carries the backend (`self`), the file, and the force flag. -/
structure QueuedTask where
  backend : Backend
  file : File
  force : Bool
deriving DecidableEq, Repr

/-- The mutable world: the shared state cache (association list keyed by cache
key), the count of invocations of `file._generate()`, and the celery task
queue. -/
structure World where
  cache : List (String × CacheEntry)
  renders : Nat
  queue : List QueuedTask
deriving DecidableEq, Repr

/-- `cache.get(key)`: the most recently written entry for `key`, if any. -/
def cacheGet (w : World) (k : String) : Option CacheEntry :=
  (w.cache.find? (fun p => p.1 == k)).map Prod.snd

/-- `cache.set(key, value[, timeout])`: overwrite the entry for `key`,
recording the explicit timeout argument when one was passed. -/
def cacheSet (w : World) (k : String) (s : CacheFileState) (t : Option Nat) : World :=
  { w with cache := (k, ⟨s, t⟩) :: w.cache.filter (fun p => p.1 != k) }

/-- `CachedFileBackend.get_key`: the source formats
`'%s%s-state' % (settings.IMAGEKIT_CACHE_PREFIX, file.name)` and passes the
result through `sanitize_cache_key` (defined in `imagekit/utils.py`, outside
this file). Per the spec the sanitizer is a deterministic string transform;
none of the claims depend on its internals, so it is modelled as the
identity. -/
def get_key (b : Backend) (f : File) : String :=
  b.cachePref ++ f.name ++ "-state"

/-- `Simple._exists`: `bool(getattr(file, '_file', None) or
file.storage.exists(file.name))` — the default existence probe, the only
`_exists` implementation in the source (used by `CachedFileBackend.get_state`
through attribute dispatch). -/
def Simple._exists (f : File) : Bool :=
  f.hasFileAttr || f.storageExists

/-- `CachedFileBackend.set_state`: writes `DOES_NOT_EXIST` with the explicit
timeout `self.existence_check_timeout`; other states are written without a
timeout argument (the cache's default TTL). -/
def set_state (b : Backend) (f : File) (s : CacheFileState) (w : World) : World :=
  let key := get_key b f
  if s = CacheFileState.DOES_NOT_EXIST then
    cacheSet w key s (some b.existence_check_timeout)
  else
    cacheSet w key s none

/-- `CachedFileBackend.get_state`: return the cached state when present
(`None` from the cache is the "unknown" sentinel, modelled as `none`); on a
cache miss with `check_if_unknown` true, run the existence probe, derive
`EXISTS`/`DOES_NOT_EXIST`, store it via `set_state`, and return it; on a miss
with `check_if_unknown` false, return `none` without probing or writing. -/
def get_state (b : Backend) (f : File) (check_if_unknown : Bool) (w : World) :
    Option CacheFileState × World :=
  let key := get_key b f
  match cacheGet w key with
  | some e => (some e.state, w)
  | none =>
    if check_if_unknown then
      let st := if Simple._exists f then CacheFileState.EXISTS
                else CacheFileState.DOES_NOT_EXIST
      (some st, set_state b f st w)
    else
      (none, w)

/-- `CachedFileBackend.exists`: `self.get_state(file) == CacheFileState.EXISTS`
(with `get_state`'s default `check_if_unknown=True`, so the probe may run and
its result may be cached as a side effect). -/
def exists_ (b : Backend) (f : File) (w : World) : Bool × World :=
  let r := get_state b f true w
  (decide (r.1 = some CacheFileState.EXISTS), r.2)

/-- `CachedFileBackend.generate_now`: the guard
`force or self.get_state(file) not in (GENERATING, EXISTS)` short-circuits, so
`get_state` is not consulted when `force` is true. When the guard passes: set
state to `GENERATING`, invoke `file._generate()` (counted in `renders`;
`Except.error ()` models a propagated exception, at which point the `EXISTS`
write is never reached), then set state to `EXISTS`. -/
def generate_now (b : Backend) (f : File) (force : Bool) (w : World) :
    World × Except Unit Unit :=
  if force then
    let w2 := set_state b f CacheFileState.GENERATING w
    let w3 := { w2 with renders := w2.renders + 1 }
    if f.generateRaises then
      (w3, Except.error ())
    else
      (set_state b f CacheFileState.EXISTS w3, Except.ok ())
  else
    let r := get_state b f true w
    if r.1 ≠ some CacheFileState.GENERATING ∧ r.1 ≠ some CacheFileState.EXISTS then
      let w2 := set_state b f CacheFileState.GENERATING r.2
      let w3 := { w2 with renders := w2.renders + 1 }
      if f.generateRaises then
        (w3, Except.error ())
      else
        (set_state b f CacheFileState.EXISTS w3, Except.ok ())
    else
      (r.2, Except.ok ())

/-- The generation step as the spec words it (§4.3 step 2): set state to
`GENERATING`, perform the file-rendering side effect (a raise propagates with
the state left as written), then set state to `EXISTS`. This is the spec-side
description; `generate_now` above is translated from the source, and the
claims compare the two. -/
def run_generation (b : Backend) (f : File) (w : World) : World × Except Unit Unit :=
  let w2 := set_state b f CacheFileState.GENERATING w
  let w3 := { w2 with renders := w2.renders + 1 }
  if f.generateRaises then
    (w3, Except.error ())
  else
    (set_state b f CacheFileState.EXISTS w3, Except.ok ())

/-- `Simple.generate`: runs `generate_now` inline (synchronously). -/
def Simple.generate (b : Backend) (f : File) (force : Bool) (w : World) :
    World × Except Unit Unit :=
  generate_now b f force w

/-- `CachedFileBackend.__getstate__`: `state = copy(self.__dict__)`;
`state.pop('_cache', None)`; `return state`. Modelled on the instance
attribute dictionary (an association list from attribute names to values);
the result pairs the returned snapshot with the instance dictionary as it
stands afterwards — the pop is applied to the copy, so the instance
dictionary is returned untouched. -/
def getstate_ {V : Type} (d : List (String × V)) :
    List (String × V) × List (String × V) :=
  let state := d
  let state := state.filter (fun p => p.1 != "_cache")
  (state, d)

/-- `_generate_file(backend, file, force)`: the module-level deferred-task
body (wrapped by `celery.task` when celery is importable); it simply calls
`backend.generate_now(file, force=force)`. -/
def _generate_file (backend : Backend) (file : File) (force : Bool) (w : World) :
    World × Except Unit Unit :=
  generate_now backend file force w

/-- The configuration error raised by `Async.__init__` when celery cannot be
imported (`django.core.exceptions.ImproperlyConfigured`). -/
structure ImproperlyConfigured where
  message : String
deriving DecidableEq, Repr

/-- `Async.__init__`: try to import celery; on `ImportError` raise
`ImproperlyConfigured` immediately, otherwise construct normally. The
availability of the celery library is the boolean parameter. -/
def Async.init (celeryAvailable : Bool) : Except ImproperlyConfigured Unit :=
  if celeryAvailable then
    Except.ok ()
  else
    Except.error ⟨"You must install celery to use imagekit.cachefiles.backend.Async."⟩

/-- `Async.generate`: read the state with `check_if_unknown=False` (no probe on
this hot path); unless it is `GENERATING` or `EXISTS`, enqueue one deferred
task `_generate_file.delay(self, file, force=force)`. -/
def Async.generate (b : Backend) (f : File) (force : Bool) (w : World) : World :=
  let r := get_state b f false w
  if r.1 ≠ some CacheFileState.GENERATING ∧ r.1 ≠ some CacheFileState.EXISTS then
    { r.2 with queue := r.2.queue ++ [⟨b, f, force⟩] }
  else
    r.2

/-! ### Concrete example values (used by witnesses and counterexamples) -/

/-- A backend with the source defaults and an example configured prefix. -/
def exBackend : Backend := { cachePref := "imagekit:" }

/-- A file absent from storage whose render succeeds. -/
def exFileMissing : File :=
  { name := "t.jpg", hasFileAttr := false, storageExists := false, generateRaises := false }

/-- A file absent from storage whose render raises. -/
def exFileRaises : File :=
  { name := "t.jpg", hasFileAttr := false, storageExists := false, generateRaises := true }

/-- A file already present in storage. -/
def exFilePresent : File :=
  { name := "t.jpg", hasFileAttr := false, storageExists := true, generateRaises := false }

/-- The initial world: empty cache, no renders, empty task queue. -/
def emptyWorld : World := { cache := [], renders := 0, queue := [] }

/-! ### Basic lemmas about the cache and state operations -/

theorem cacheGet_cacheSet_self (w : World) (k : String) (s : CacheFileState)
    (t : Option Nat) : cacheGet (cacheSet w k s t) k = some ⟨s, t⟩ := by
  simp [cacheGet, cacheSet, List.find?_cons_of_pos]

theorem cacheSet_renders (w : World) (k : String) (s : CacheFileState)
    (t : Option Nat) : (cacheSet w k s t).renders = w.renders := rfl

theorem cacheSet_queue (w : World) (k : String) (s : CacheFileState)
    (t : Option Nat) : (cacheSet w k s t).queue = w.queue := rfl

theorem set_state_cacheGet_self (b : Backend) (f : File) (s : CacheFileState)
    (w : World) :
    cacheGet (set_state b f s w) (get_key b f) =
      some ⟨s, if s = CacheFileState.DOES_NOT_EXIST
               then some b.existence_check_timeout else none⟩ := by
  unfold set_state
  by_cases h : s = CacheFileState.DOES_NOT_EXIST <;>
    simp [h, cacheGet_cacheSet_self]

theorem set_state_renders (b : Backend) (f : File) (s : CacheFileState)
    (w : World) : (set_state b f s w).renders = w.renders := by
  unfold set_state
  by_cases h : s = CacheFileState.DOES_NOT_EXIST <;> simp [h, cacheSet]

theorem set_state_queue (b : Backend) (f : File) (s : CacheFileState)
    (w : World) : (set_state b f s w).queue = w.queue := by
  unfold set_state
  by_cases h : s = CacheFileState.DOES_NOT_EXIST <;> simp [h, cacheSet]

theorem get_state_renders (b : Backend) (f : File) (c : Bool) (w : World) :
    (get_state b f c w).2.renders = w.renders := by
  unfold get_state
  cases h : cacheGet w (get_key b f) <;> cases c <;>
    simp [h, set_state_renders]

theorem get_state_queue (b : Backend) (f : File) (c : Bool) (w : World) :
    (get_state b f c w).2.queue = w.queue := by
  unfold get_state
  cases h : cacheGet w (get_key b f) <;> cases c <;>
    simp [h, set_state_queue]

theorem get_state_no_probe_id (b : Backend) (f : File) (w : World) :
    (get_state b f false w).2 = w := by
  unfold get_state
  cases h : cacheGet w (get_key b f) <;> simp [h]

theorem get_state_hit (b : Backend) (f : File) (c : Bool) (w : World)
    (e : CacheEntry) (h : cacheGet w (get_key b f) = some e) :
    get_state b f c w = (some e.state, w) := by
  unfold get_state
  simp [h]

theorem get_state_miss_probe (b : Backend) (f : File) (w : World)
    (h : cacheGet w (get_key b f) = none) :
    get_state b f true w =
      (some (if Simple._exists f then CacheFileState.EXISTS
             else CacheFileState.DOES_NOT_EXIST),
       set_state b f
         (if Simple._exists f then CacheFileState.EXISTS
          else CacheFileState.DOES_NOT_EXIST) w) := by
  unfold get_state
  simp [h]

theorem generate_now_forced (b : Backend) (f : File) (w : World) :
    generate_now b f true w = run_generation b f w := rfl

theorem generate_now_noop (b : Backend) (f : File) (w : World)
    (h : (get_state b f true w).1 = some CacheFileState.GENERATING ∨
         (get_state b f true w).1 = some CacheFileState.EXISTS) :
    generate_now b f false w = ((get_state b f true w).2, Except.ok ()) := by
  unfold generate_now
  rcases h with h | h <;> simp [h]

theorem generate_now_proceed (b : Backend) (f : File) (w : World)
    (h1 : (get_state b f true w).1 ≠ some CacheFileState.GENERATING)
    (h2 : (get_state b f true w).1 ≠ some CacheFileState.EXISTS) :
    generate_now b f false w = run_generation b f (get_state b f true w).2 := by
  unfold generate_now run_generation
  simp [h1, h2]

theorem run_generation_renders (b : Backend) (f : File) (w : World) :
    (run_generation b f w).1.renders = w.renders + 1 := by
  unfold run_generation
  cases hr : f.generateRaises <;> simp [hr, set_state_renders]

theorem run_generation_ok (b : Backend) (f : File) (w : World)
    (hr : f.generateRaises = false) :
    run_generation b f w =
      (set_state b f CacheFileState.EXISTS
        { set_state b f CacheFileState.GENERATING w with
            renders := (set_state b f CacheFileState.GENERATING w).renders + 1 },
       Except.ok ()) := by
  unfold run_generation
  simp [hr]

theorem run_generation_raise (b : Backend) (f : File) (w : World)
    (hr : f.generateRaises = true) :
    (run_generation b f w).2 = Except.error () ∧
    (cacheGet (run_generation b f w).1 (get_key b f)).map CacheEntry.state =
      some CacheFileState.GENERATING := by
  unfold run_generation
  refine ⟨by simp [hr], ?_⟩
  have hc : cacheGet
      { set_state b f CacheFileState.GENERATING w with
          renders := (set_state b f CacheFileState.GENERATING w).renders + 1 }
      (get_key b f) =
      cacheGet (set_state b f CacheFileState.GENERATING w) (get_key b f) := rfl
  simp [hr, hc, set_state_cacheGet_self]

/-! ### Claim theorems -/

/-- C1: `generate_now(file, force)` implements the two-step algorithm. With
`force` false it first reads the state via `get_state` (probing allowed) and
returns immediately — no side effects beyond `get_state`'s own, in particular
no render — when that state is `GENERATING` or `EXISTS`; otherwise, and always
when `force` is true, it sets `GENERATING`, invokes `file._generate()`, and
then sets `EXISTS` (the `run_generation` step). With `force=true` the render is
always performed regardless of prior state: the render count always rises by
one. -/
theorem generate_now_two_step (b : Backend) (f : File) (w : World) :
    (((get_state b f true w).1 = some CacheFileState.GENERATING ∨
      (get_state b f true w).1 = some CacheFileState.EXISTS) →
        generate_now b f false w = ((get_state b f true w).2, Except.ok ()) ∧
        (generate_now b f false w).1.renders = w.renders) ∧
    (((get_state b f true w).1 ≠ some CacheFileState.GENERATING ∧
      (get_state b f true w).1 ≠ some CacheFileState.EXISTS) →
        generate_now b f false w = run_generation b f (get_state b f true w).2) ∧
    (generate_now b f true w = run_generation b f w ∧
     (generate_now b f true w).1.renders = w.renders + 1) := by
  refine ⟨fun h => ⟨generate_now_noop b f w h, ?_⟩,
          fun h => generate_now_proceed b f w h.1 h.2,
          generate_now_forced b f w, ?_⟩
  · rw [generate_now_noop b f w h]
    exact get_state_renders b f true w
  · rw [generate_now_forced b f w]
    exact run_generation_renders b f w

/-- Witness for C1: for a file already present in storage the non-forced call
is a no-op beyond the probe, and for a missing file the non-forced call runs
the generation step. -/
theorem generate_now_two_step_witness :
    (generate_now exBackend exFilePresent false emptyWorld =
       ((get_state exBackend exFilePresent true emptyWorld).2, Except.ok ()) ∧
     (generate_now exBackend exFilePresent false emptyWorld).1.renders =
       emptyWorld.renders) ∧
    generate_now exBackend exFileMissing false emptyWorld =
      run_generation exBackend exFileMissing
        (get_state exBackend exFileMissing true emptyWorld).2 :=
  ⟨(generate_now_two_step exBackend exFilePresent emptyWorld).1
      (Or.inr (by decide)),
   (generate_now_two_step exBackend exFileMissing emptyWorld).2.1
      ⟨by decide, by decide⟩⟩

/-- C2 counterexample: for a file already present in storage (the first probe
resolves the state to `EXISTS`), two sequential non-forced `generate_now`
calls invoke the render zero times, not exactly once. -/
theorem generate_now_twice_counterexample :
    ¬ ((generate_now exBackend exFilePresent false
          (generate_now exBackend exFilePresent false emptyWorld).1).1.renders =
        emptyWorld.renders + 1) := by decide

/-- C2 (amended): when the first non-forced call actually generates — the
initial state (after the probe) is neither `GENERATING` nor `EXISTS` — and the
render succeeds, two sequential non-forced `generate_now` calls invoke the
render exactly once: the first renders, and the second is a no-op returning
the world unchanged because the state is already `EXISTS`. -/
theorem generate_now_twice_amended (b : Backend) (f : File) (w : World)
    (h1 : (get_state b f true w).1 ≠ some CacheFileState.GENERATING)
    (h2 : (get_state b f true w).1 ≠ some CacheFileState.EXISTS)
    (h3 : f.generateRaises = false) :
    (generate_now b f false w).2 = Except.ok () ∧
    (generate_now b f false w).1.renders = w.renders + 1 ∧
    generate_now b f false (generate_now b f false w).1 =
      ((generate_now b f false w).1, Except.ok ()) := by
  have hp := generate_now_proceed b f w h1 h2
  refine ⟨?_, ?_, ?_⟩
  · rw [hp, run_generation_ok b f _ h3]
  · rw [hp, run_generation_renders, get_state_renders]
  · have hw1 : cacheGet (generate_now b f false w).1 (get_key b f) =
        some ⟨CacheFileState.EXISTS, none⟩ := by
      rw [hp, run_generation_ok b f _ h3]
      rw [set_state_cacheGet_self]
      rfl
    have hg2 := get_state_hit b f true (generate_now b f false w).1
      ⟨CacheFileState.EXISTS, none⟩ hw1
    have hn := generate_now_noop b f (generate_now b f false w).1
      (Or.inr (by rw [hg2]))
    rw [hn, hg2]

/-- Witness for C2 (amended): a file absent from storage, starting from the
empty cache. -/
theorem generate_now_twice_amended_witness :
    (generate_now exBackend exFileMissing false emptyWorld).2 = Except.ok () ∧
    (generate_now exBackend exFileMissing false emptyWorld).1.renders =
      emptyWorld.renders + 1 ∧
    generate_now exBackend exFileMissing false
        (generate_now exBackend exFileMissing false emptyWorld).1 =
      ((generate_now exBackend exFileMissing false emptyWorld).1, Except.ok ()) :=
  generate_now_twice_amended exBackend exFileMissing emptyWorld
    (by decide) (by decide) rfl

/-- C3: if `file._generate()` raises inside `generate_now` (hypothesis: the
guard passed, so the render is actually invoked), the exception propagates
unchanged to the caller (`Except.error`), and the cached state is left at
`GENERATING` — no rollback, and the `EXISTS` write is never reached. -/
theorem generate_now_raise_propagates (b : Backend) (f : File) (force : Bool)
    (w : World) (hr : f.generateRaises = true)
    (hg : force = true ∨
          ((get_state b f true w).1 ≠ some CacheFileState.GENERATING ∧
           (get_state b f true w).1 ≠ some CacheFileState.EXISTS)) :
    (generate_now b f force w).2 = Except.error () ∧
    (cacheGet (generate_now b f force w).1 (get_key b f)).map CacheEntry.state =
      some CacheFileState.GENERATING := by
  cases force with
  | true =>
    rw [generate_now_forced b f w]
    exact run_generation_raise b f w hr
  | false =>
    rcases hg with hf | ⟨h1, h2⟩
    · exact absurd hf (by simp)
    · rw [generate_now_proceed b f w h1 h2]
      exact run_generation_raise b f _ hr

/-- Witness for C3: a missing file whose render raises, from the empty
cache. -/
theorem generate_now_raise_propagates_witness :
    (generate_now exBackend exFileRaises false emptyWorld).2 = Except.error () ∧
    (cacheGet (generate_now exBackend exFileRaises false emptyWorld).1
        (get_key exBackend exFileRaises)).map CacheEntry.state =
      some CacheFileState.GENERATING :=
  generate_now_raise_propagates exBackend exFileRaises false emptyWorld rfl
    (Or.inr ⟨by decide, by decide⟩)

/-- C4: `set_state` writes with the state-dependent TTL policy — a
`DOES_NOT_EXIST` record carries the explicit short expiry
`existence_check_timeout` (whose default on the backend is 5), while `EXISTS`
and `GENERATING` records are written with no explicit timeout (the cache's
default/long TTL). -/
theorem set_state_ttl_policy (b : Backend) (f : File) (s : CacheFileState)
    (w : World) (p : String) :
    cacheGet (set_state b f s w) (get_key b f) =
      some ⟨s, if s = CacheFileState.DOES_NOT_EXIST
               then some b.existence_check_timeout else none⟩ ∧
    ({ cachePref := p } : Backend).existence_check_timeout = 5 :=
  ⟨set_state_cacheGet_self b f s w, rfl⟩

/-- C5: `get_state` returns the cached state on a hit (without touching the
world); on a miss with `check_if_unknown` true it probes, derives
`EXISTS`/`DOES_NOT_EXIST`, stores that state via `set_state` and returns it;
on a miss with `check_if_unknown` false it returns the unknown sentinel
(`none`, distinct from the three defined states) without probing or
writing. -/
theorem get_state_contract (b : Backend) (f : File) (c : Bool) (w : World) :
    (∀ e : CacheEntry, cacheGet w (get_key b f) = some e →
        get_state b f c w = (some e.state, w)) ∧
    (cacheGet w (get_key b f) = none →
        get_state b f true w =
          (some (if Simple._exists f then CacheFileState.EXISTS
                 else CacheFileState.DOES_NOT_EXIST),
           set_state b f
             (if Simple._exists f then CacheFileState.EXISTS
              else CacheFileState.DOES_NOT_EXIST) w) ∧
        (cacheGet (get_state b f true w).2 (get_key b f)).map CacheEntry.state =
          some (if Simple._exists f then CacheFileState.EXISTS
                else CacheFileState.DOES_NOT_EXIST)) ∧
    (cacheGet w (get_key b f) = none → get_state b f false w = (none, w)) := by
  refine ⟨fun e he => get_state_hit b f c w e he,
          fun h => ⟨get_state_miss_probe b f w h, ?_⟩, fun h => ?_⟩
  · rw [get_state_miss_probe b f w h]
    simp [set_state_cacheGet_self]
  · unfold get_state
    simp [h]

/-- Witness for C5: a present file probed from the empty cache resolves and
stores `EXISTS`; with probing disabled, the miss returns `none` and leaves the
world unchanged. -/
theorem get_state_contract_witness :
    get_state exBackend exFilePresent true emptyWorld =
      (some CacheFileState.EXISTS,
       set_state exBackend exFilePresent CacheFileState.EXISTS emptyWorld) ∧
    get_state exBackend exFileMissing false emptyWorld = (none, emptyWorld) :=
  ⟨by
    have h := (get_state_contract exBackend exFilePresent true emptyWorld).2.1
      (by decide)
    simpa [Simple._exists, exFilePresent] using h.1,
   (get_state_contract exBackend exFileMissing false emptyWorld).2.2 (by decide)⟩

/-- C6: the async dispatcher reads the state with probing disabled (the read
leaves the world unchanged — no existence check runs on this path) and
enqueues exactly one deferred task carrying (backend, file, force) iff that
state is neither `GENERATING` nor `EXISTS`; when the cached state is already
`EXISTS` (or `GENERATING`) zero tasks are enqueued; and the task body
`_generate_file` runs `generate_now` with the same force flag, re-applying the
duplicate-suppression guard at execution time. -/
theorem async_generate_contract (b : Backend) (f : File) (force : Bool)
    (w : World) :
    (get_state b f false w).2 = w ∧
    (((get_state b f false w).1 ≠ some CacheFileState.GENERATING ∧
      (get_state b f false w).1 ≠ some CacheFileState.EXISTS) →
        Async.generate b f force w =
          { w with queue := w.queue ++ [⟨b, f, force⟩] }) ∧
    (((get_state b f false w).1 = some CacheFileState.GENERATING ∨
      (get_state b f false w).1 = some CacheFileState.EXISTS) →
        Async.generate b f force w = w) ∧
    (∀ wr : World, _generate_file b f force wr = generate_now b f force wr) := by
  have hid := get_state_no_probe_id b f w
  refine ⟨hid, fun h => ?_, fun h => ?_, fun wr => rfl⟩
  · unfold Async.generate
    simp only [hid]
    rw [if_pos h]
  · unfold Async.generate
    simp only [hid]
    rcases h with h | h <;> simp [h]

/-- A world whose cache already records `EXISTS` for the example missing
file. -/
def wExists : World :=
  set_state exBackend exFileMissing CacheFileState.EXISTS emptyWorld

/-- Witness for C6: from the empty cache (unknown state) exactly one task is
enqueued; from a cache recording `EXISTS`, zero tasks are enqueued. -/
theorem async_generate_contract_witness :
    Async.generate exBackend exFileMissing true emptyWorld =
      { emptyWorld with
          queue := emptyWorld.queue ++ [⟨exBackend, exFileMissing, true⟩] } ∧
    Async.generate exBackend exFileMissing false wExists = wExists :=
  ⟨(async_generate_contract exBackend exFileMissing true emptyWorld).2.1
      ⟨by decide, by decide⟩,
   (async_generate_contract exBackend exFileMissing false wExists).2.2.1
      (Or.inr (by decide))⟩

/-- C7: constructing the async dispatcher without the celery library available
raises `ImproperlyConfigured` immediately (fail fast, no silent fallback to
synchronous behaviour); with celery available, construction succeeds. -/
theorem async_init_fail_fast :
    Async.init false =
      Except.error
        ⟨"You must install celery to use imagekit.cachefiles.backend.Async."⟩ ∧
    Async.init true = Except.ok () :=
  ⟨rfl, rfl⟩

/-- C8: `exists(file)` is true iff `get_state` (with probing enabled) reports
`EXISTS`; the default probe `Simple._exists` is true iff an in-memory
representation is attached or storage reports the file present; and on a cache
miss `get_state` resolves to `EXISTS` exactly when the probe reports true. -/
theorem exists_contract (b : Backend) (f : File) (w : World) :
    ((exists_ b f w).1 = true ↔
      (get_state b f true w).1 = some CacheFileState.EXISTS) ∧
    Simple._exists f = (f.hasFileAttr || f.storageExists) ∧
    (cacheGet w (get_key b f) = none →
      ((get_state b f true w).1 = some CacheFileState.EXISTS ↔
        Simple._exists f = true)) := by
  refine ⟨?_, rfl, fun h => ?_⟩
  · simp [exists_]
  · rw [get_state_miss_probe b f w h]
    cases hp : Simple._exists f <;> simp [hp]

/-- Witness for C8: for a file present in storage and an empty cache,
`get_state` reports `EXISTS`. -/
theorem exists_contract_witness :
    (get_state exBackend exFilePresent true emptyWorld).1 =
      some CacheFileState.EXISTS :=
  ((exists_contract exBackend exFilePresent emptyWorld).2.2 (by decide)).mpr
    (by decide)

/-- C9: the serialization snapshot `__getstate__` never contains the `_cache`
attribute, contains every other attribute unchanged, and producing it leaves
the instance attribute dictionary untouched (the pop happens on a copy). -/
theorem getstate_excludes_cache {V : Type} (d : List (String × V)) :
    (∀ p ∈ (getstate_ d).1, p.1 ≠ "_cache") ∧
    (∀ p ∈ d, p.1 ≠ "_cache" → p ∈ (getstate_ d).1) ∧
    (getstate_ d).2 = d := by
  refine ⟨?_, ?_, rfl⟩
  · intro p hp
    simp only [getstate_] at hp
    have h2 := (List.mem_filter.mp hp).2
    simpa using h2
  · intro p hp hne
    simp only [getstate_]
    exact List.mem_filter.mpr ⟨hp, by simpa using hne⟩

/-- Witness for C9: a concrete attribute dictionary with a `_cache` entry and
one other attribute. -/
theorem getstate_excludes_cache_witness :
    ("x", (1 : Nat)) ∈ (getstate_ [("_cache", (0 : Nat)), ("x", 1)]).1 ∧
    (getstate_ [("_cache", (0 : Nat)), ("x", 1)]).2 = [("_cache", 0), ("x", 1)] :=
  ⟨(getstate_excludes_cache [("_cache", (0 : Nat)), ("x", 1)]).2.1 ("x", 1)
      (by decide) (by decide),
   (getstate_excludes_cache [("_cache", (0 : Nat)), ("x", 1)]).2.2⟩

/-- C10: with probing enabled, `get_state` never returns the unknown sentinel
`none` — its result is always one of the three defined states. (The cache by
construction only holds values of the tri-state type previously written by
`set_state`, matching the claim's hypothesis.) -/
theorem get_state_probed_tri_state (b : Backend) (f : File) (w : World) :
    ∃ s : CacheFileState, (get_state b f true w).1 = some s ∧
      (s = CacheFileState.EXISTS ∨ s = CacheFileState.GENERATING ∨
       s = CacheFileState.DOES_NOT_EXIST) := by
  cases h : cacheGet w (get_key b f) with
  | none =>
    rw [get_state_miss_probe b f w h]
    cases hp : Simple._exists f
    · exact ⟨CacheFileState.DOES_NOT_EXIST, by simp [hp], by simp⟩
    · exact ⟨CacheFileState.EXISTS, by simp [hp], by simp⟩
  | some e =>
    rw [get_state_hit b f true w e h]
    exact ⟨e.state, rfl, by cases e.state <;> simp⟩
